import Mathlib

/-!
# Operation-AetherBloom: the notification bridge and the usage display

A shallow embedding of `web/firebase-messaging-sw.js` (the service worker that
turns background push messages into notifications and reacts to clicks on them)
and of `website/api.js` (the page script that fetches one JSON record and writes
it into the page), with the properties of the two scripts proved over it.

Calls into the host (console, notification display, window clients, network,
DOM) are recorded as a list of effects in program order; an `await` is the
value the host delivers at that point.
-/

set_option autoImplicit false

namespace AetherBloom

/-! ## JavaScript values -/

/-- The values the two scripts handle: what `JSON.parse` or a push payload can
hold, and `undefined` for what is absent. A number is held as its canonical
text, the string Number-to-String gives for it (`3`, `-2`, `0.5`, `1e+21`,
`NaN`; both zeros have the text `0`): the scripts read nothing else of a
number than this text and whether it is zero or `NaN`. `str` carries
well-formed text; an `obj` lists its own properties, first entry of a key
first. -/
inductive JSVal where
  | undefined
  | null
  | bool (b : Bool)
  | num (text : String)
  | str (s : String)
  | arr (items : List JSVal)
  | obj (fields : List (String × JSVal))

/-- A thrown or rejected error object: its constructor name and its message. -/
structure JSError where
  name : String
  message : String

/-- Own-property lookup in the property list of an object. -/
def lookup (k : String) : List (String × JSVal) → Option JSVal
  | [] => none
  | (k', v) :: rest => if k' = k then some v else lookup k rest

/-- ToBoolean: the falsy values are `undefined`, `null`, `false`, the zeros,
`NaN` and `""`. -/
def truthy : JSVal → Bool
  | .undefined => false
  | .null => false
  | .bool b => b
  | .num text => text != "0" && text != "NaN"
  | .str s => s != ""
  | .arr _ => true
  | .obj _ => true

/-- The operator `a || b`: `a` when it is truthy, else `b`. -/
def jsOr (a b : JSVal) : JSVal :=
  if truthy a then a else b

/-- The comparison `v === s` against a string literal `s`. -/
def strictEqStr (v : JSVal) (s : String) : Bool :=
  match v with
  | .str t => t == s
  | _ => false

/-- The error raised by reading a property of `undefined` or `null`. -/
def cannotRead (k : String) : JSError :=
  { name := "TypeError", message := "Cannot read properties of undefined or null (reading " ++ k ++ ")" }

/-- Property read `v.k`, for the property names the scripts use (none of them
is a member of a built-in prototype): raises on `undefined` and `null`, reads
an own property of an object, and is `undefined` on every other value. -/
def getProp (v : JSVal) (k : String) : Except JSError JSVal :=
  match v with
  | .undefined => .error (cannotRead k)
  | .null => .error (cannotRead k)
  | .obj fields => .ok ((lookup k fields).getD .undefined)
  | _ => .ok .undefined

/-- Optional chaining `v?.k`: `undefined` when `v` is `undefined` or `null`,
else the property read. -/
def optChain (v : JSVal) (k : String) : JSVal :=
  match v with
  | .obj fields => (lookup k fields).getD .undefined
  | _ => .undefined

/-- The error raised when an object cannot be converted to a primitive. -/
def cannotConvert : JSError :=
  { name := "TypeError", message := "Cannot convert object to primitive value" }

mutual
/-- ToString, as a template literal applies it to a substituted value. A plain
object gives `[object Object]` through the inherited `toString`; one whose own
`toString` property shadows it (with a value that is data, so not callable)
cannot be converted. An array is joined with commas. -/
def toStr : JSVal → Except JSError String
  | .undefined => .ok "undefined"
  | .null => .ok "null"
  | .bool b => .ok (if b then "true" else "false")
  | .num text => .ok text
  | .str s => .ok s
  | .arr items => joinItems items
  | .obj fields =>
    if (lookup "toString" fields).isSome then .error cannotConvert else .ok "[object Object]"
termination_by structural v => v
/-- The text of `items.join(",")`: an `undefined` or `null` entry is empty. -/
def joinItems : List JSVal → Except JSError String
  | [] => .ok ""
  | x :: rest =>
    match (match x with
      | .undefined => Except.ok ""
      | .null => Except.ok ""
      | v => toStr v) with
    | .error e => .error e
    | .ok a =>
      match rest, joinItems rest with
      | _, .error e => .error e
      | [], .ok _ => .ok a
      | _ :: _, .ok b => .ok (a ++ "," ++ b)
termination_by structural l => l
end

/-- The method `s.includes(t)`: `t` occurs in `s` as a contiguous run. -/
def includes (s t : String) : Bool :=
  s.data.tails.any (fun u => t.data.isPrefixOf u)

/-- What a handler did: the host calls it made, in order, and how it ended. -/
structure Run (ε α : Type) where
  effects : List ε
  result : Except JSError α

/-! ## `web/firebase-messaging-sw.js` -/

/-- One entry of the `actions` array of the notification options. -/
structure NotificationAction where
  action : String
  title : String
  icon : Option String

/-- The object literal `notificationOptions`. -/
structure NotificationOptions where
  body : JSVal
  icon : String
  badge : String
  tag : String
  requireInteraction : Bool
  data : JSVal
  actions : List NotificationAction

/-- A client returned by `clients.matchAll`: its id, its `url`, and whether
the object has a `focus` member (`'focus' in client`). -/
structure Client where
  id : String
  url : String
  hasFocus : Bool
  deriving DecidableEq

/-- The `notificationclick` event: `event.action` (the host gives the empty
string for a click outside the action buttons). -/
structure NotificationEvent where
  action : JSVal

/-- What the worker reads from its host while handling a click:
`self.location.origin`, the list `clients.matchAll(\x7b type: 'window',
includeUncontrolled: true \x7d)` resolves to, and whether `clients.openWindow`
is defined. -/
structure WorkerHost where
  origin : String
  windows : List Client
  openWindow : Bool

/-- The host calls of the service worker. -/
inductive SwEffect where
  | logPayload (msg : String) (payload : JSVal)
  | logEvent (msg : String) (event : NotificationEvent)
  | log (msg : String)
  | showNotification (title : JSVal) (options : NotificationOptions)
  | closeNotification
  | focus (client : Client)
  | openWindow (url : String)
  | skipWaiting

/-- The title and the options the `onBackgroundMessage` callback computes
(lines 26 to 45); it raises when `payload` is `undefined` or `null`. -/
def buildNotification (payload : JSVal) : Except JSError (JSVal × NotificationOptions) := do
  let notificationTitle :=
    jsOr (optChain (← getProp payload "notification") "title") (.str "AetherBloom Notification")
  let notificationOptions : NotificationOptions :=
    { body := jsOr (optChain (← getProp payload "notification") "body")
        (.str "You have a new notification")
      icon := "/icons/Icon-192.png"
      badge := "/icons/Icon-192.png"
      tag := "aetherbloom-notification"
      requireInteraction := true
      data := ← getProp payload "data"
      actions :=
        [ { action := "open", title := "Open App", icon := some "/icons/Icon-192.png" },
          { action := "dismiss", title := "Dismiss", icon := none } ] }
  return (notificationTitle, notificationOptions)

/-- The callback passed to `messaging.onBackgroundMessage`. -/
def onBackgroundMessage (payload : JSVal) : Run SwEffect Unit :=
  let logged := SwEffect.logPayload "📱 Background message received in service worker:" payload
  match buildNotification payload with
  | .error e => { effects := [logged], result := .error e }
  | .ok (notificationTitle, notificationOptions) =>
    { effects := [logged, .showNotification notificationTitle notificationOptions]
      result := .ok () }

/-- The callback given to `clients.matchAll(...).then`: the loop over the
client list with its early return, then the guarded `clients.openWindow('/')`. -/
def focusOrOpen (host : WorkerHost) : List Client → List SwEffect
  | [] => if host.openWindow then [.openWindow "/"] else []
  | client :: rest =>
    if includes client.url host.origin && client.hasFocus then [.focus client]
    else focusOrOpen host rest

/-- The `notificationclick` listener. -/
def notificationclick (host : WorkerHost) (event : NotificationEvent) : List SwEffect :=
  [.logEvent "📱 Notification click received:" event, .closeNotification] ++
    (if strictEqStr event.action "open" || !truthy event.action then
      focusOrOpen host host.windows
    else [])

/-- The `activate` listener. -/
def activate : List SwEffect :=
  [.log "📱 FCM Service Worker activated"]

/-- The `install` listener. -/
def install : List SwEffect :=
  [.log "📱 FCM Service Worker installed", .skipWaiting]

/-- The windows an effect list focuses. -/
def focused : List SwEffect → List Client
  | [] => []
  | .focus c :: rest => c :: focused rest
  | _ :: rest => focused rest

/-- The URLs an effect list opens a new window at. -/
def opened : List SwEffect → List String
  | [] => []
  | .openWindow u :: rest => u :: opened rest
  | _ :: rest => opened rest

/-- The notifications an effect list shows: title and options of each. -/
def shown : List SwEffect → List (JSVal × NotificationOptions)
  | [] => []
  | .showNotification t o :: rest => (t, o) :: shown rest
  | _ :: rest => shown rest

/-- The origin of a URL: the scheme, `://`, and the authority up to the first
`/`, `?` or `#`; none for a URL without an authority, whose origin is opaque
and equal to no worker's. The worker never computes it: the specification's
wording of the window search uses it, and so does the host when it chooses the
clients `matchAll` resolves to. -/
def urlOrigin (url : String) : Option String :=
  match url.data.dropWhile (fun c => c != ':') with
  | ':' :: '/' :: '/' :: more =>
    some (String.mk (url.data.takeWhile (fun c => c != ':') ++ [':', '/', '/'] ++
      more.takeWhile (fun c => c != '/' && c != '?' && c != '#')))
  | _ => none

/-- What `clients.matchAll(\x7b type: 'window', includeUncontrolled: true \x7d)`
resolves to in a browser whose open clients are `all`: the window clients (the
ones with a `focus` member) of the worker's own origin, controlled or not, in
the browser's order. The origin of a client is taken to be the origin of its
URL. -/
def matchAll (origin : String) (all : List Client) : List Client :=
  all.filter (fun c => c.hasFocus && urlOrigin c.url == some origin)

/-! ## `website/api.js` -/

/-- The constant `API_ENDPOINT`. -/
def API_ENDPOINT : String := "http://localhost:5000"

/-- A response as `fetchUsageData` reads it: the HTTP status, from which the
host derives `response.ok`, and what `response.json()` settles to (the parsed
body, or the error of a body that is not JSON). -/
structure Response where
  status : Nat
  json : Except JSError JSVal

/-- The getter `response.ok`: the status is in the range 200 to 299. -/
def Response.ok (r : Response) : Bool :=
  decide (200 ≤ r.status) && decide (r.status ≤ 299)

/-- The host calls of the page script that leave a trace: console lines. -/
inductive PageEffect where
  | log (msg : String)
  | logValue (msg : String) (value : JSVal)
  | error (msg : String)
  | errorWith (msg : String) (err : JSError)

/-- The `try` block of `fetchUsageData` (lines 8 to 15): `fetch` is what the
host delivers for a GET of the given URL, a response or a rejection. -/
def fetchUsageDataTry (fetch : String → Except JSError Response) :
    Run PageEffect JSVal :=
  let attempt := PageEffect.log "Attempting to fetch data from API..."
  match fetch (API_ENDPOINT ++ "/fetchData") with
  | .error e => { effects := [attempt], result := .error e }
  | .ok response =>
    if !response.ok then
      { effects := [attempt]
        result := .error { name := "Error", message := "Network response was not ok" } }
    else
      match response.json with
      | .error e => { effects := [attempt], result := .error e }
      | .ok data =>
        { effects := [attempt, .logValue "Data received:" data], result := .ok data }

/-- The function `fetchUsageData`: the `try` block, and the `catch` clause that
logs the error and returns `null`. -/
def fetchUsageData (fetch : String → Except JSError Response) : Run PageEffect JSVal :=
  let attempt := fetchUsageDataTry fetch
  match attempt.result with
  | .ok data => { effects := attempt.effects, result := .ok data }
  | .error error =>
    { effects := attempt.effects ++ [.errorWith "Error fetching usage data:" error]
      result := .ok .null }

/-- An element of the page that carries an id, with its markup (`innerHTML`)
held as the text last written to it. -/
structure Element where
  id : String
  innerHTML : String

/-- The page: its identified elements in document order. -/
structure Document where
  elements : List Element

/-- The call `document.getElementById(id)`: the first element with that id. -/
def getElementById (doc : Document) (id : String) : Option Element :=
  doc.elements.find? (fun e => e.id == id)

/-- Assignment to `innerHTML` of the element `getElementById` returns. -/
def setInnerHTML (id html : String) : List Element → List Element
  | [] => []
  | e :: rest =>
    if e.id == id then { e with innerHTML := html } :: rest
    else e :: setInnerHTML id html rest

/-- The template literal of lines 36 to 43, with the three substitutions
already converted to text. -/
def usageCard (inhalerUseCount timestamp notes : String) : String :=
  "\n        <div class='data-card'>\n            <h3>Recent Inhaler Usage</h3>\n            <p>Count: "
    ++ inhalerUseCount ++ "</p>\n            <p>Last Used: "
    ++ timestamp ++ "</p>\n            <p>Notes: "
    ++ notes ++ "</p>\n        </div>\n    "

/-- Evaluation of the template literal on `data`: each property is read and
converted with ToString, left to right. -/
def renderCard (data : JSVal) : Except JSError String := do
  let inhalerUseCount ← toStr (← getProp data "inhalerUseCount")
  let timestamp ← toStr (← getProp data "timestamp")
  let notes ← toStr (← getProp data "notes")
  return usageCard inhalerUseCount timestamp notes

/-- The outcome of `displayUsageData`: the console lines, the page afterwards,
and whether it returned or raised. -/
structure Display where
  effects : List PageEffect
  doc : Document
  result : Except JSError Unit

/-- The function `displayUsageData`. -/
def displayUsageData (doc : Document) (data : JSVal) : Display :=
  match getElementById doc "usage-data" with
  | none =>
    { effects := [.error "Could not find usage-data element in DOM"]
      doc := doc
      result := .ok () }
  | some _ =>
    if !truthy data then
      { effects := []
        doc :=
          { elements :=
              setInnerHTML "usage-data" "<p>Unable to fetch data. Server may be offline.</p>"
                doc.elements }
        result := .ok () }
    else
      let shownLog := PageEffect.log "Displaying data in usage-data element"
      match renderCard data with
      | .error e => { effects := [shownLog], doc := doc, result := .error e }
      | .ok html =>
        { effects := [shownLog]
          doc := { elements := setInnerHTML "usage-data" html doc.elements }
          result := .ok () }

/-- The `DOMContentLoaded` listener: fetch, then display what came back. -/
def onDOMContentLoaded (fetch : String → Except JSError Response) (doc : Document) :
    Display :=
  let loaded := PageEffect.log "DOM loaded, fetching usage data..."
  let fetched := fetchUsageData fetch
  match fetched.result with
  | .error e => { effects := loaded :: fetched.effects, doc := doc, result := .error e }
  | .ok data =>
    let displayed := displayUsageData doc data
    { displayed with effects := loaded :: fetched.effects ++ displayed.effects }

/-- The markup of the `usage-data` element of a page, when there is one. -/
def usageDataContent (doc : Document) : Option String :=
  (getElementById doc "usage-data").map (fun e => e.innerHTML)

/-- The open clients of a browser that shows one window, of another site. -/
def otherSiteClients : List Client :=
  [{ id := "w1", url := "https://other.example/", hasFocus := true }]

/-- A worker at `https://app.example` in a browser that does not define
`clients.openWindow` and whose open clients are `otherSiteClients`: no client
is of the worker's origin, so `matchAll` resolves to the empty list. -/
def otherSiteOnlyHost : WorkerHost :=
  { origin := "https://app.example"
    windows := matchAll "https://app.example" otherSiteClients
    openWindow := false }

/-- The open clients of a browser that shows a window of another site and,
after it, a window of the application. -/
def twoSiteClients : List Client :=
  [{ id := "a", url := "https://other.example/", hasFocus := true },
    { id := "b", url := "https://app.example/home", hasFocus := true }]

/-- A record, as a JSON body can hold it, whose `notes` is an object with an
own property named `toString` (of value 1). -/
def unconvertibleRecord : JSVal :=
  .obj [("inhalerUseCount", .num "1"), ("timestamp", .str "t"),
    ("notes", .obj [("toString", .num "1")])]

/-- A worker on a host that does not define `clients.openWindow`, with no
window client open. -/
def noOpenWindowHost : WorkerHost :=
  { origin := "https://app.example", windows := [], openWindow := false }

/-- A payload whose notification carries an empty title and an empty body. -/
def emptyTextPayload : JSVal :=
  .obj [("notification", .obj [("title", .str ""), ("body", .str "")])]

/-- The record of the specification's example. -/
def exampleRecord : JSVal :=
  .obj [("inhalerUseCount", .num "3"), ("timestamp", .str "2024-01-01T00:00:00Z"),
    ("notes", .str "ok")]

/-- A page with a heading and the `usage-data` container, still showing its
loading text. -/
def examplePage : Document :=
  { elements := [{ id := "title", innerHTML := "AetherBloom" },
      { id := "usage-data", innerHTML := "<p>Loading...</p>" }] }

/-- A page without the `usage-data` container. -/
def bareExamplePage : Document :=
  { elements := [{ id := "title", innerHTML := "AetherBloom" }] }

/-! ## Lemmas on the value model -/

theorem jsOr_str (s : String) (d : JSVal) :
    jsOr (.str s) d = if s = "" then d else .str s := by
  by_cases h : s = "" <;> simp [jsOr, truthy, h]

theorem jsOr_undefined (d : JSVal) : jsOr .undefined d = d := by
  simp [jsOr, truthy]

theorem includes_append (a t b : String) : includes (a ++ t ++ b) t = true := by
  unfold includes
  rw [List.any_eq_true]
  refine ⟨t.data ++ b.data, ?_, ?_⟩
  · rw [List.mem_tails]
    exact ⟨a.data, by simp [String.data_append]⟩
  · simp

/-! ## Lemmas on the click handler -/

theorem focusOrOpen_eq_find (host : WorkerHost) (ws : List Client)
    (hfocus : ∀ c ∈ ws, c.hasFocus = true) :
    focusOrOpen host ws =
      match ws.find? (fun w => includes w.url host.origin) with
      | some c => [.focus c]
      | none => if host.openWindow then [.openWindow "/"] else [] := by
  induction ws with
  | nil => simp [focusOrOpen]
  | cons w rest ih =>
    have hw : w.hasFocus = true := hfocus w (List.mem_cons_self _ _)
    have hrest : ∀ c ∈ rest, c.hasFocus = true := fun c hc => hfocus c (List.mem_cons_of_mem _ hc)
    by_cases hin : includes w.url host.origin = true
    · simp [focusOrOpen, hin, hw]
    · simp [focusOrOpen, hin, List.find?, ih hrest]

theorem focusOrOpen_count_le (host : WorkerHost) (ws : List Client) :
    (focused (focusOrOpen host ws)).length + (opened (focusOrOpen host ws)).length ≤ 1 := by
  induction ws with
  | nil => cases h : host.openWindow <;> simp [focusOrOpen, h, focused, opened]
  | cons w rest ih =>
    by_cases hin : (includes w.url host.origin && w.hasFocus) = true
    · simp [focusOrOpen, hin, focused, opened]
    · simpa [focusOrOpen, hin] using ih

theorem focusOrOpen_count_eq (host : WorkerHost) (ws : List Client)
    (hopen : host.openWindow = true) :
    (focused (focusOrOpen host ws)).length + (opened (focusOrOpen host ws)).length = 1 := by
  induction ws with
  | nil => simp [focusOrOpen, hopen, focused, opened]
  | cons w rest ih =>
    by_cases hin : (includes w.url host.origin && w.hasFocus) = true
    · simp [focusOrOpen, hin, focused, opened]
    · simpa [focusOrOpen, hin] using ih

theorem notificationclick_windows (host : WorkerHost) (ev : NotificationEvent)
    (hact : ev.action = .str "open" ∨ ev.action = .str "" ∨ ev.action = .undefined) :
    focused (notificationclick host ev) = focused (focusOrOpen host host.windows) ∧
      opened (notificationclick host ev) = opened (focusOrOpen host host.windows) := by
  rcases hact with h | h | h <;>
    simp [notificationclick, h, strictEqStr, truthy, focused, opened]

/-! ## The background-message callback -/

theorem onBackgroundMessage_obj (fields : List (String × JSVal)) :
    onBackgroundMessage (.obj fields) =
      { effects :=
          [.logPayload "📱 Background message received in service worker:" (.obj fields),
            .showNotification
              (jsOr (optChain ((lookup "notification" fields).getD .undefined) "title")
                (.str "AetherBloom Notification"))
              { body := jsOr (optChain ((lookup "notification" fields).getD .undefined) "body")
                  (.str "You have a new notification")
                icon := "/icons/Icon-192.png"
                badge := "/icons/Icon-192.png"
                tag := "aetherbloom-notification"
                requireInteraction := true
                data := (lookup "data" fields).getD .undefined
                actions :=
                  [ { action := "open", title := "Open App", icon := some "/icons/Icon-192.png" },
                    { action := "dismiss", title := "Dismiss", icon := none } ] }]
        result := .ok () } :=
  rfl

/-- C3: for every payload object without a `notification` property, whatever
its other properties, the callback returns after showing exactly one
notification, whose title is `AetherBloom Notification` and whose body is
`You have a new notification`. -/
theorem onBackgroundMessage_missing_notification (fields : List (String × JSVal))
    (hmissing : lookup "notification" fields = none) :
    ∃ options : NotificationOptions,
      shown (onBackgroundMessage (.obj fields)).effects =
          [(.str "AetherBloom Notification", options)] ∧
        options.body = .str "You have a new notification" ∧
        (onBackgroundMessage (.obj fields)).result = .ok () := by
  rw [onBackgroundMessage_obj]
  simp only [hmissing, Option.getD_none, optChain, jsOr_undefined, shown]
  exact ⟨_, rfl, rfl, trivial⟩

theorem onBackgroundMessage_missing_notification_witness :
    lookup "notification" [("data", JSVal.obj [("kind", .str "refill")])] = none ∧
      ∃ options : NotificationOptions,
        shown (onBackgroundMessage
            (.obj [("data", .obj [("kind", .str "refill")])])).effects =
            [(.str "AetherBloom Notification", options)] ∧
          options.body = .str "You have a new notification" ∧
          (onBackgroundMessage (.obj [("data", .obj [("kind", .str "refill")])])).result =
            .ok () :=
  ⟨rfl, onBackgroundMessage_missing_notification _ rfl⟩

/-- C4: for every payload object with a `data` property `d`, whatever its
`notification` property is (absent, `null`, an object, anything else), the
callback shows exactly one notification and the `data` of its options is `d`
itself. -/
theorem onBackgroundMessage_data_unchanged (fields : List (String × JSVal)) (d : JSVal)
    (hdata : lookup "data" fields = some d) :
    ∃ (title : JSVal) (options : NotificationOptions),
      shown (onBackgroundMessage (.obj fields)).effects = [(title, options)] ∧
        options.data = d := by
  rw [onBackgroundMessage_obj]
  simp only [hdata, Option.getD_some, shown]
  exact ⟨_, _, rfl, rfl⟩

theorem onBackgroundMessage_data_unchanged_witness :
    lookup "data"
        [("notification", JSVal.null), ("data", .obj [("dose", .num "2"), ("tags", .arr [])])] =
        some (.obj [("dose", .num "2"), ("tags", .arr [])]) ∧
      ∃ (title : JSVal) (options : NotificationOptions),
        shown (onBackgroundMessage (.obj
            [("notification", .null),
              ("data", .obj [("dose", .num "2"), ("tags", .arr [])])])).effects =
            [(title, options)] ∧
          options.data = .obj [("dose", .num "2"), ("tags", .arr [])] :=
  ⟨rfl, onBackgroundMessage_data_unchanged _ _ rfl⟩

/-- C10, as the claim states it, fails: a payload whose notification has the
empty string as title and as body is shown with the two default texts, not
with the empty strings. -/
theorem onBackgroundMessage_empty_text_counterexample :
    (shown (onBackgroundMessage emptyTextPayload).effects).map (fun p => p.1) =
        [.str "AetherBloom Notification"] ∧
      (shown (onBackgroundMessage emptyTextPayload).effects).map (fun p => p.1) ≠
        [.str ""] ∧
      (shown (onBackgroundMessage emptyTextPayload).effects).map (fun p => p.2.body) =
        [.str "You have a new notification"] ∧
      (shown (onBackgroundMessage emptyTextPayload).effects).map (fun p => p.2.body) ≠
        [.str ""] := by
  refine ⟨rfl, ?_, rfl, ?_⟩
  · intro h
    have h2 : [JSVal.str "AetherBloom Notification"] = [JSVal.str ""] := h
    simp at h2
  · intro h
    have h2 : [JSVal.str "You have a new notification"] = [JSVal.str ""] := h
    simp at h2

/-- C10, amended: for every payload whose `notification` is an object, exactly
one notification is shown; when the notification's `title` is a string `s`, the
title shown is `s` if `s` is not empty and `AetherBloom Notification` if it is;
when its `body` is a string `b`, the body of the options is `b` if `b` is not
empty and `You have a new notification` if it is. -/
theorem onBackgroundMessage_present_text (fields nfields : List (String × JSVal))
    (hnotification : lookup "notification" fields = some (.obj nfields)) :
    ∃ (title : JSVal) (options : NotificationOptions),
      shown (onBackgroundMessage (.obj fields)).effects = [(title, options)] ∧
        (∀ s : String, lookup "title" nfields = some (.str s) →
          title = if s = "" then .str "AetherBloom Notification" else .str s) ∧
        (∀ b : String, lookup "body" nfields = some (.str b) →
          options.body = if b = "" then .str "You have a new notification" else .str b) := by
  rw [onBackgroundMessage_obj]
  simp only [hnotification, Option.getD_some, optChain, shown]
  refine ⟨_, _, rfl, ?_, ?_⟩
  · intro s hs
    simp only [hs, Option.getD_some, jsOr_str]
  · intro b hb
    simp only [hb, Option.getD_some, jsOr_str]

theorem onBackgroundMessage_present_text_witness :
    lookup "notification"
        [("notification", JSVal.obj [("title", .str "Refill due"), ("body", .str "")])] =
        some (.obj [("title", .str "Refill due"), ("body", .str "")]) ∧
      ∃ (title : JSVal) (options : NotificationOptions),
        shown (onBackgroundMessage (.obj
            [("notification", .obj [("title", .str "Refill due"), ("body", .str "")])])).effects =
            [(title, options)] ∧
          title = .str "Refill due" ∧
          options.body = .str "You have a new notification" := by
  obtain ⟨title, options, hshown, htitle, hbody⟩ :=
    onBackgroundMessage_present_text
      [("notification", JSVal.obj [("title", .str "Refill due"), ("body", .str "")])]
      [("title", .str "Refill due"), ("body", .str "")] rfl
  exact ⟨rfl, title, options, hshown, by simpa using htitle "Refill due" rfl,
    by simpa using hbody "" rfl⟩

theorem includes_of_data (s t : String) (a b : List Char)
    (h : s.data = a ++ t.data ++ b) : includes s t = true := by
  unfold includes
  rw [List.any_eq_true]
  refine ⟨t.data ++ b, ?_, ?_⟩
  · rw [List.mem_tails, h]
    exact ⟨a, by simp⟩
  · simp

theorem urlOrigin_includes (url origin : String) (h : urlOrigin url = some origin) :
    includes url origin = true := by
  unfold urlOrigin at h
  split at h
  · rename_i more hdrop
    have hsplit := List.takeWhile_append_dropWhile (fun c => c != ':') url.data
    have hmore := List.takeWhile_append_dropWhile
      (fun c => c != '/' && c != '?' && c != '#') more
    injection h with h
    have hurl : url.data =
        (url.data.takeWhile (fun c => c != ':') ++ [':', '/', '/'] ++
          more.takeWhile (fun c => c != '/' && c != '?' && c != '#')) ++
          more.dropWhile (fun c => c != '/' && c != '?' && c != '#') := by
      calc url.data
          = url.data.takeWhile (fun c => c != ':') ++
              url.data.dropWhile (fun c => c != ':') := hsplit.symm
        _ = url.data.takeWhile (fun c => c != ':') ++ (':' :: '/' :: '/' :: more) := by
            rw [hdrop]
        _ = _ := by
            conv_lhs => rw [← hmore]
            simp
    subst h
    exact includes_of_data url _ []
      (more.dropWhile (fun c => c != '/' && c != '?' && c != '#')) (by simpa using hurl)
  · cases h

theorem mem_matchAll (origin : String) (all : List Client) (c : Client) :
    c ∈ matchAll origin all ↔
      c ∈ all ∧ c.hasFocus = true ∧ urlOrigin c.url = some origin := by
  simp [matchAll, List.mem_filter]

theorem focusOrOpen_matchAll (host : WorkerHost) (all : List Client)
    (hwin : host.windows = matchAll host.origin all) :
    focusOrOpen host host.windows =
      match matchAll host.origin all with
      | [] => if host.openWindow then [.openWindow "/"] else []
      | c :: _ => [.focus c] := by
  rw [hwin]
  cases hm : matchAll host.origin all with
  | nil => simp [focusOrOpen]
  | cons c rest =>
    have hc : c ∈ matchAll host.origin all := by rw [hm]; exact List.mem_cons_self _ _
    obtain ⟨_, hcf, hco⟩ := (mem_matchAll host.origin all c).mp hc
    simp [focusOrOpen, urlOrigin_includes c.url host.origin hco, hcf]

/-! ## The click handler -/

/-- C1, as the claim states it, fails: in a browser that does not define
`clients.openWindow` and whose only open window is of another site, no open
window has the worker's origin, and a click with action `open` focuses no
window but opens no new window either, where the claim has one opened at `/`. -/
theorem notificationclick_no_new_window_counterexample :
    otherSiteOnlyHost.windows = matchAll otherSiteOnlyHost.origin otherSiteClients ∧
      (∀ w ∈ otherSiteClients, urlOrigin w.url ≠ some otherSiteOnlyHost.origin) ∧
      focused (notificationclick otherSiteOnlyHost { action := .str "open" }) = [] ∧
      opened (notificationclick otherSiteOnlyHost { action := .str "open" }) = [] ∧
      opened (notificationclick otherSiteOnlyHost { action := .str "open" }) ≠ ["/"] := by
  refine ⟨rfl, by decide, by decide, by decide, by decide⟩

/-- C1, amended: for every click whose action is `open` or absent, every list of
open clients of the browser and every worker origin, on a host that defines
`clients.openWindow` and resolves `matchAll` as the platform does: if some open
window's URL has an origin equal to the worker's own origin, then such a window
is the one window focused and no new window is opened; otherwise (no open
window's URL has the worker's origin) no window is focused and one new window
is opened, at `/`. -/
theorem notificationclick_same_origin_window (host : WorkerHost) (all : List Client)
    (ev : NotificationEvent)
    (hact : ev.action = .str "open" ∨ ev.action = .str "" ∨ ev.action = .undefined)
    (hwin : host.windows = matchAll host.origin all)
    (hopen : host.openWindow = true) :
    ((∃ w ∈ all, w.hasFocus = true ∧ urlOrigin w.url = some host.origin) →
        ∃ w ∈ all, w.hasFocus = true ∧ urlOrigin w.url = some host.origin ∧
          focused (notificationclick host ev) = [w] ∧
          opened (notificationclick host ev) = []) ∧
      ((∀ w ∈ all, w.hasFocus = true → urlOrigin w.url ≠ some host.origin) →
        focused (notificationclick host ev) = [] ∧
          opened (notificationclick host ev) = ["/"]) := by
  obtain ⟨hf, ho⟩ := notificationclick_windows host ev hact
  rw [hf, ho, focusOrOpen_matchAll host all hwin]
  constructor
  · rintro ⟨w, hw, hwf, hwo⟩
    cases hm : matchAll host.origin all with
    | nil =>
      have hmem : w ∈ matchAll host.origin all := (mem_matchAll host.origin all w).mpr ⟨hw, hwf, hwo⟩
      rw [hm] at hmem
      cases hmem
    | cons c rest =>
      have hc : c ∈ matchAll host.origin all := by rw [hm]; exact List.mem_cons_self _ _
      obtain ⟨hcall, hcf, hco⟩ := (mem_matchAll host.origin all c).mp hc
      exact ⟨c, hcall, hcf, hco, rfl, rfl⟩
  · intro hnone
    cases hm : matchAll host.origin all with
    | nil => simp [hopen, focused, opened]
    | cons c rest =>
      have hc : c ∈ matchAll host.origin all := by rw [hm]; exact List.mem_cons_self _ _
      obtain ⟨hcall, hcf, hco⟩ := (mem_matchAll host.origin all c).mp hc
      exact absurd hco (hnone c hcall hcf)

theorem notificationclick_same_origin_window_witness :
    ∃ w ∈ twoSiteClients, w.hasFocus = true ∧ urlOrigin w.url = some "https://app.example" ∧
      focused (notificationclick
          { origin := "https://app.example"
            windows := matchAll "https://app.example" twoSiteClients
            openWindow := true }
          { action := .str "" }) = [w] ∧
        opened (notificationclick
          { origin := "https://app.example"
            windows := matchAll "https://app.example" twoSiteClients
            openWindow := true }
          { action := .str "" }) = [] :=
  (notificationclick_same_origin_window
    { origin := "https://app.example"
      windows := matchAll "https://app.example" twoSiteClients
      openWindow := true }
    twoSiteClients { action := .str "" } (Or.inr (Or.inl rfl)) rfl rfl).1
    ⟨{ id := "b", url := "https://app.example/home", hasFocus := true }, by decide, rfl,
      by decide⟩

/-- C2, as the claim states it, fails: on a host that does not define
`clients.openWindow` and has no window client open, a click with action `open`
focuses no window and opens none, so the total is zero, not one. -/
theorem notificationclick_no_openWindow_counterexample :
    (focused (notificationclick noOpenWindowHost { action := .str "open" })).length +
        (opened (notificationclick noOpenWindowHost { action := .str "open" })).length = 0 := by
  decide

/-- C2, amended: for every host and every click with action `dismiss`, no
window is focused and none is opened; for every click whose action is `open` or
absent, on a host that defines `clients.openWindow`, the windows focused and
the windows opened are exactly one in total; and for every click on every host
they are at most one in total. -/
theorem notificationclick_window_total (host : WorkerHost) (ev : NotificationEvent) :
    (ev.action = .str "dismiss" →
        focused (notificationclick host ev) = [] ∧ opened (notificationclick host ev) = []) ∧
      ((ev.action = .str "open" ∨ ev.action = .str "" ∨ ev.action = .undefined) →
        host.openWindow = true →
        (focused (notificationclick host ev)).length +
          (opened (notificationclick host ev)).length = 1) ∧
      (focused (notificationclick host ev)).length +
        (opened (notificationclick host ev)).length ≤ 1 := by
  refine ⟨?_, ?_, ?_⟩
  · intro h
    simp [notificationclick, h, strictEqStr, truthy, focused, opened]
  · intro hact hopen
    obtain ⟨hf, ho⟩ := notificationclick_windows host ev hact
    rw [hf, ho]
    exact focusOrOpen_count_eq host host.windows hopen
  · by_cases hc : (strictEqStr ev.action "open" || !truthy ev.action) = true
    · have := focusOrOpen_count_le host host.windows
      simpa [notificationclick, hc, focused, opened] using this
    · simp [notificationclick, hc, focused, opened]

theorem notificationclick_window_total_witness :
    (focused (notificationclick
          { origin := "https://app.example", windows := [], openWindow := true }
          { action := .str "dismiss" }) = [] ∧
        opened (notificationclick
          { origin := "https://app.example", windows := [], openWindow := true }
          { action := .str "dismiss" }) = []) ∧
      (focused (notificationclick
          { origin := "https://app.example", windows := [], openWindow := true }
          { action := .undefined })).length +
        (opened (notificationclick
          { origin := "https://app.example", windows := [], openWindow := true }
          { action := .undefined })).length = 1 :=
  ⟨(notificationclick_window_total
      { origin := "https://app.example", windows := [], openWindow := true }
      { action := .str "dismiss" }).1 rfl,
    (notificationclick_window_total
      { origin := "https://app.example", windows := [], openWindow := true }
      { action := .undefined }).2.1 (Or.inr (Or.inr rfl)) rfl⟩

/-! ## `fetchUsageData` -/

/-- C5: `fetchUsageData` never raises, whatever the host delivers, and returns
`null` when the fetch is rejected (a transport failure), when the response is
not `ok` (status outside 200 to 299, such as 500), and when `response.json()`
is rejected (a body that is not JSON). -/
theorem fetchUsageData_failure_null (fetch : String → Except JSError Response) :
    (∃ v, (fetchUsageData fetch).result = .ok v) ∧
      (∀ e, fetch (API_ENDPOINT ++ "/fetchData") = .error e →
        (fetchUsageData fetch).result = .ok .null) ∧
      (∀ r, fetch (API_ENDPOINT ++ "/fetchData") = .ok r → r.ok = false →
        (fetchUsageData fetch).result = .ok .null) ∧
      (∀ r e, fetch (API_ENDPOINT ++ "/fetchData") = .ok r → r.json = .error e →
        (fetchUsageData fetch).result = .ok .null) := by
  refine ⟨?_, ?_, ?_, ?_⟩
  · cases h : (fetchUsageDataTry fetch).result with
    | ok v => exact ⟨v, by simp [fetchUsageData, h]⟩
    | error e => exact ⟨.null, by simp [fetchUsageData, h]⟩
  · intro e h
    simp [fetchUsageData, fetchUsageDataTry, h]
  · intro r h hok
    simp [fetchUsageData, fetchUsageDataTry, h, hok]
  · intro r e h hjson
    cases hok : r.ok <;> simp [fetchUsageData, fetchUsageDataTry, h, hok, hjson]

theorem fetchUsageData_failure_null_witness :
    (fetchUsageData (fun _ =>
        .error { name := "TypeError", message := "Failed to fetch" })).result = .ok .null ∧
      (fetchUsageData (fun _ =>
        .ok { status := 500, json := .ok (.obj []) })).result = .ok .null ∧
      (fetchUsageData (fun _ =>
        .ok { status := 200
              json := .error { name := "SyntaxError", message := "Unexpected token" } })).result =
        .ok .null :=
  ⟨(fetchUsageData_failure_null _).2.1 _ rfl,
    (fetchUsageData_failure_null _).2.2.1 _ rfl (by decide),
    (fetchUsageData_failure_null _).2.2.2 _ _ rfl rfl⟩

/-- C6: when the fetch delivers a response that is `ok` and whose body parses
to a value `v`, `fetchUsageData` returns `v` itself. -/
theorem fetchUsageData_success (fetch : String → Except JSError Response) (r : Response)
    (v : JSVal) (hfetch : fetch (API_ENDPOINT ++ "/fetchData") = .ok r)
    (hok : r.ok = true) (hjson : r.json = .ok v) :
    (fetchUsageData fetch).result = .ok v := by
  simp [fetchUsageData, fetchUsageDataTry, hfetch, hok, hjson]

theorem fetchUsageData_success_witness :
    (fetchUsageData (fun _ =>
        .ok { status := 200
              json := .ok (.obj [("inhalerUseCount", .num "3"), ("extra", .null)]) })).result =
      .ok (.obj [("inhalerUseCount", .num "3"), ("extra", .null)]) :=
  fetchUsageData_success _ _ _ rfl (by decide) rfl

/-! ## `displayUsageData` -/

theorem find_setInnerHTML (id html : String) (els : List Element) :
    ((setInnerHTML id html els).find? (fun e => e.id == id)).map (fun e => e.innerHTML) =
      (els.find? (fun e => e.id == id)).map (fun _ => html) := by
  induction els with
  | nil => simp [setInnerHTML]
  | cons e rest ih =>
    by_cases h : (e.id == id) = true
    · simp [setInnerHTML, h, List.find?]
    · simp [setInnerHTML, h, List.find?, ih]

theorem usageDataContent_setInnerHTML (doc : Document) (html : String)
    (hel : (getElementById doc "usage-data").isSome = true) :
    usageDataContent { elements := setInnerHTML "usage-data" html doc.elements } = some html := by
  unfold usageDataContent getElementById at *
  rw [find_setInnerHTML]
  cases h : doc.elements.find? (fun e => e.id == "usage-data") with
  | none => simp [h] at hel
  | some e => rfl

theorem includes_of_eq (s a t b : String) (h : s = a ++ t ++ b) : includes s t = true := by
  rw [h]
  exact includes_append a t b

theorem usageCard_includes (count ts notes : String) :
    includes (usageCard count ts notes) ("Count: " ++ count) = true ∧
      includes (usageCard count ts notes) ("Last Used: " ++ ts) = true ∧
      includes (usageCard count ts notes) ("Notes: " ++ notes) = true := by
  have h1 : "\n        <div class='data-card'>\n            <h3>Recent Inhaler Usage</h3>\n            <p>Count: "
      = "\n        <div class='data-card'>\n            <h3>Recent Inhaler Usage</h3>\n            <p>"
        ++ "Count: " := by decide
  have h2 : "</p>\n            <p>Last Used: " = "</p>\n            <p>" ++ "Last Used: " := by
    decide
  have h3 : "</p>\n            <p>Notes: " = "</p>\n            <p>" ++ "Notes: " := by
    decide
  refine ⟨?_, ?_, ?_⟩
  · refine includes_of_eq _
      "\n        <div class='data-card'>\n            <h3>Recent Inhaler Usage</h3>\n            <p>"
      _ ("</p>\n            <p>Last Used: " ++ ts ++ "</p>\n            <p>Notes: " ++ notes
        ++ "</p>\n        </div>\n    ") ?_
    rw [usageCard, h1]
    simp only [String.append_assoc]
  · refine includes_of_eq _
      ("\n        <div class='data-card'>\n            <h3>Recent Inhaler Usage</h3>\n            <p>Count: "
        ++ count ++ "</p>\n            <p>")
      _ ("</p>\n            <p>Notes: " ++ notes ++ "</p>\n        </div>\n    ") ?_
    rw [usageCard, h2]
    simp only [String.append_assoc]
  · refine includes_of_eq _
      ("\n        <div class='data-card'>\n            <h3>Recent Inhaler Usage</h3>\n            <p>Count: "
        ++ count ++ "</p>\n            <p>Last Used: " ++ ts ++ "</p>\n            <p>")
      _ "</p>\n        </div>\n    " ?_
    rw [usageCard, h3]
    simp only [String.append_assoc]

/-- C7, as the claim states it, fails: on a page with a `usage-data` element,
the record whose `notes` is an object with an own `toString` property is not
null, yet `displayUsageData` raises while it converts `notes` to text and the
element keeps what it held, which contains no `Count: 1`. -/
theorem displayUsageData_unconvertible_counterexample :
    (getElementById examplePage "usage-data").isSome = true ∧
      truthy unconvertibleRecord = true ∧
      (displayUsageData examplePage unconvertibleRecord).result = .error cannotConvert ∧
      usageDataContent (displayUsageData examplePage unconvertibleRecord).doc =
        some "<p>Loading...</p>" ∧
      includes "<p>Loading...</p>" "Count: 1" = false := by
  refine ⟨rfl, rfl, rfl, rfl, by decide⟩

/-- C7, amended: when the page has a `usage-data` element, for every truthy
`data` (every record object in particular) whose properties `inhalerUseCount`,
`timestamp` and `notes` read as `c`, `t` and `n` (`undefined` for a missing
one) and convert to the texts `sc`, `st` and `sn`, `displayUsageData` returns
and leaves in the element the template with the three texts inserted as they
are; that fragment contains `Count: ` followed by `sc`, `Last Used: ` followed
by `st` and `Notes: ` followed by `sn`. -/
theorem displayUsageData_record (doc : Document) (data c t n : JSVal) (sc st sn : String)
    (hel : (getElementById doc "usage-data").isSome = true)
    (hdata : truthy data = true)
    (hc : getProp data "inhalerUseCount" = .ok c)
    (ht : getProp data "timestamp" = .ok t)
    (hn : getProp data "notes" = .ok n)
    (hsc : toStr c = .ok sc) (hst : toStr t = .ok st) (hsn : toStr n = .ok sn) :
    (displayUsageData doc data).result = .ok () ∧
      usageDataContent (displayUsageData doc data).doc = some (usageCard sc st sn) ∧
      includes (usageCard sc st sn) ("Count: " ++ sc) = true ∧
      includes (usageCard sc st sn) ("Last Used: " ++ st) = true ∧
      includes (usageCard sc st sn) ("Notes: " ++ sn) = true := by
  have hrender : renderCard data = .ok (usageCard sc st sn) := by
    simp [renderCard, hc, ht, hn, hsc, hst, hsn, bind, Except.bind, pure, Except.pure]
  obtain ⟨e, he⟩ := Option.isSome_iff_exists.mp hel
  refine ⟨?_, ?_, usageCard_includes sc st sn⟩
  · simp [displayUsageData, he, hdata, hrender]
  · have hdoc : (displayUsageData doc data).doc =
        { elements := setInnerHTML "usage-data" (usageCard sc st sn) doc.elements } := by
      simp [displayUsageData, he, hdata, hrender]
    rw [hdoc]
    exact usageDataContent_setInnerHTML doc _ hel

theorem displayUsageData_record_witness :
    usageDataContent (displayUsageData examplePage exampleRecord).doc =
        some (usageCard "3" "2024-01-01T00:00:00Z" "ok") ∧
      includes (usageCard "3" "2024-01-01T00:00:00Z" "ok") "Count: 3" = true ∧
      includes (usageCard "3" "2024-01-01T00:00:00Z" "ok")
        "Last Used: 2024-01-01T00:00:00Z" = true ∧
      includes (usageCard "3" "2024-01-01T00:00:00Z" "ok") "Notes: ok" = true :=
  (displayUsageData_record examplePage exampleRecord (.num "3") (.str "2024-01-01T00:00:00Z")
    (.str "ok") "3" "2024-01-01T00:00:00Z" "ok" rfl rfl rfl rfl rfl rfl rfl rfl).2

/-- C8: when the page has a `usage-data` element, whatever it held before,
`displayUsageData(null)` returns and leaves in it exactly
`<p>Unable to fetch data. Server may be offline.</p>`. -/
theorem displayUsageData_null (doc : Document)
    (hel : (getElementById doc "usage-data").isSome = true) :
    (displayUsageData doc .null).result = .ok () ∧
      usageDataContent (displayUsageData doc .null).doc =
        some "<p>Unable to fetch data. Server may be offline.</p>" := by
  obtain ⟨e, he⟩ := Option.isSome_iff_exists.mp hel
  constructor
  · simp [displayUsageData, he, truthy]
  · have hdoc : (displayUsageData doc .null).doc =
        { elements := setInnerHTML "usage-data"
            "<p>Unable to fetch data. Server may be offline.</p>" doc.elements } := by
      simp [displayUsageData, he, truthy]
    rw [hdoc]
    exact usageDataContent_setInnerHTML doc _ hel

theorem displayUsageData_null_witness :
    (getElementById examplePage "usage-data").isSome = true ∧
      (displayUsageData examplePage .null).result = .ok () ∧
      usageDataContent (displayUsageData examplePage .null).doc =
        some "<p>Unable to fetch data. Server may be offline.</p>" :=
  ⟨rfl, displayUsageData_null examplePage rfl⟩

/-- C9: when the page has no `usage-data` element, `displayUsageData` returns
without raising for every input, `null` or not, and the page afterwards is the
page before. -/
theorem displayUsageData_missing_element (doc : Document) (data : JSVal)
    (hmissing : getElementById doc "usage-data" = none) :
    (displayUsageData doc data).result = .ok () ∧ (displayUsageData doc data).doc = doc := by
  simp [displayUsageData, hmissing]

theorem displayUsageData_missing_element_witness :
    getElementById bareExamplePage "usage-data" = none ∧
      (displayUsageData bareExamplePage exampleRecord).result = .ok () ∧
      (displayUsageData bareExamplePage exampleRecord).doc = bareExamplePage :=
  ⟨rfl, displayUsageData_missing_element bareExamplePage exampleRecord rfl⟩

end AetherBloom
